import Mathlib

/-
Verification of the Hybrid Data Explorer backend.

This file is a shallow embedding of the Node/Express backend of the
repository (src/backend/index.js: the `/api/query` proxy handler and the
`/api/config` CRUD handlers) together with the PUT/DELETE handlers of the
alternate backend copy shipped in src/unnamed/part_003.

Modelling conventions:
- JSON values are the inductive `JVal`; JavaScript objects are association
  lists (`JObj`).  Property access (`jget`) and object-literal construction
  with spread (`mkFunctionPayload`) follow JavaScript semantics: in an
  object literal a later key overwrites an earlier one, so lookup takes the
  last binding.
- The JavaScript builtins JSON.stringify / JSON.parse are modelled for flat
  objects with string values (`serializeFlat` / `parseObjStr`); every
  `source_details` document appearing in the repository has exactly this
  shape (for example \x7b"projectId":"p","datasetId":"d","tableId":"t"\x7d).
- The BigQuery `entities` table is modelled as a list of stored rows.  The
  data model declares `entity_name` as the unique key, and the POST handler
  maps the client's ALREADY_EXISTS error (`error.code === 6`) to 409, so
  insertion of an existing key is modelled as that failure.  DML row counts
  (`numDmlAffectedRows`) are the number of rows matching the WHERE clause.
- Outbound effects (ID-token requests to the credential broker and HTTP
  calls to the Cloud Function) are recorded in an `Effects` value; the
  behaviour of the downstream function is an oracle argument `Downstream`.
-/

/-- Scalar and structured JSON values (JavaScript values as far as the
backend inspects them); `jundefined` models JavaScript `undefined`. -/
inductive JVal where
  | jnull
  | jundefined
  | jbool (b : Bool)
  | jnum (n : Int)
  | jstr (s : String)
  | jobj (fields : List (String × JVal))
  | jarr (elems : List JVal)
deriving Repr

/-- A JavaScript object as an association list of fields. -/
abbrev JObj := List (String × JVal)

/-- Property lookup.  The LAST binding of a key wins, matching JavaScript
object-literal construction where later (spread) keys overwrite earlier
ones. -/
def jget (o : JObj) (k : String) : Option JVal :=
  o.foldl (fun acc p => if p.1 = k then some p.2 else acc) none

/-- Property access defaulting to `undefined` for a missing key, as in
JavaScript. -/
def jgetD (o : JObj) (k : String) : JVal :=
  (jget o k).getD .jundefined

/-- The body `res.json(\x7b error: s \x7d)` used by every error branch of the
backend. -/
def errBody (s : String) : JVal :=
  .jobj [("error", .jstr s)]

/-- The body `res.json(\x7b message: s \x7d)` used by the update handler. -/
def msgBody (s : String) : JVal :=
  .jobj [("message", .jstr s)]

/-- The double-quote character. -/
def dq : Char := Char.ofNat 34

/-- The single-quote character, used inside backend error messages. -/
def squote : String := String.singleton (Char.ofNat 39)

/-- An opening curly brace as a one-character string. -/
def lbrace : Char := Char.ofNat 123

/-- A closing curly brace as a one-character string. -/
def rbrace : Char := Char.ofNat 125

/-- The `source_details` field of an entity as the backend receives it:
either a JSON string (as stored in BigQuery / sent by the frontend mock
config) or an already-structured object.  `index.js` distinguishes the two
with `typeof entity.source_details === 'string'`. -/
inductive SDetails where
  | strVal (s : String)
  | objVal (o : JObj)
deriving Repr

/-- The caller-supplied `entity` object of a `/api/query` request body
(`src/backend/index.js` reads exactly these fields). -/
structure Entity where
  entity_name : String
  display_name : String
  source_of_system : String
  source_details : SDetails
deriving Repr

/-- Modelled JavaScript builtin: JSON.stringify of a string, for strings
without embedded quotes or escapes (no escaping performed). -/
def serializeStrLit (s : String) : String :=
  String.singleton dq ++ s ++ String.singleton dq

/-- Modelled JavaScript builtin: the comma-separated `"key":"value"` pairs
inside JSON.stringify of a flat string-valued object. -/
def serializePairs : List (String × String) → String
  | [] => ""
  | [p] => serializeStrLit p.1 ++ ":" ++ serializeStrLit p.2
  | p :: q :: t =>
      serializeStrLit p.1 ++ ":" ++ serializeStrLit p.2 ++ ","
        ++ serializePairs (q :: t)

/-- Modelled JavaScript builtin: JSON.stringify of a flat object whose
values are all strings — the shape of every `source_details` in the
repository. -/
def serializeFlat (o : List (String × String)) : String :=
  String.singleton lbrace ++ serializePairs o ++ String.singleton rbrace

/-- The structured object corresponding to a flat string-valued document. -/
def toJObj (o : List (String × String)) : JObj :=
  o.map (fun p => (p.1, JVal.jstr p.2))

/-- Whether a character is not the double quote (the scanning predicate of
the string-literal parser). -/
def notQuote (c : Char) : Bool := c ≠ dq

/-- Parse a JSON string literal (no escape handling): a leading quote, a
run of non-quote characters, a closing quote; returns the remaining
characters. -/
def parseStringLit : List Char → Option (String × List Char)
  | [] => none
  | c :: rest =>
      if c = dq then
        match rest.dropWhile notQuote with
        | c2 :: rest2 =>
            if c2 = dq then some (String.mk (rest.takeWhile notQuote), rest2)
            else none
        | [] => none
      else none

/-- Parse one `"key":"value"` member of a JSON object. -/
def parsePair (cs : List Char) : Option ((String × JVal) × List Char) :=
  match parseStringLit cs with
  | none => none
  | some (k, cs1) =>
      match cs1 with
      | c :: cs2 =>
          if c = ':' then
            match parseStringLit cs2 with
            | none => none
            | some (v, cs3) => some ((k, JVal.jstr v), cs3)
          else none
      | [] => none

/-- Parse a non-empty comma-separated member list followed by the closing
brace; `fuel` bounds the recursion by the number of members. -/
def parsePairs : Nat → List Char → Option (JObj × List Char)
  | 0, _ => none
  | Nat.succ fuel, cs =>
      match parsePair cs with
      | none => none
      | some (p, cs1) =>
          match cs1 with
          | [] => none
          | c :: cs2 =>
              if c = ',' then
                match parsePairs fuel cs2 with
                | none => none
                | some (ps, cs3) => some (p :: ps, cs3)
              else if c = rbrace then some ([p], cs2)
              else none

/-- Modelled JavaScript builtin: JSON.parse restricted to flat objects with
string values (the only shape the backend ever parses); any other input is
a parse failure, which in `index.js` surfaces as the thrown-and-caught
error of the try block. -/
def parseObjStr (s : String) : Option JObj :=
  match s.data with
  | [] => none
  | c :: rest =>
      if c = lbrace then
        match rest with
        | [] => none
        | c2 :: rest2 =>
            if c2 = rbrace then
              if rest2 = [] then some [] else none
            else
              match parsePairs rest.length rest with
              | some (ps, []) => some ps
              | _ => none
      else none

/-- Lines 158-160 of `src/backend/index.js`:
`typeof entity.source_details === 'string' ? JSON.parse(...) : ...`. -/
def parseSourceDetails : SDetails → Option JObj
  | .strVal s => parseObjStr s
  | .objVal o => some o

/-- Lines 162-167 of `src/backend/index.js`: the object literal
`\x7b projectId, datasetId, tableId, ...query \x7d`; the spread of `query`
comes after the three coordinates, so query keys overwrite them (`jget`
takes the last binding). -/
def mkFunctionPayload (sourceDetails : JObj) (query : JObj) : JObj :=
  [("projectId", jgetD sourceDetails "projectId"),
   ("datasetId", jgetD sourceDetails "datasetId"),
   ("tableId", jgetD sourceDetails "tableId")]
  ++ query

/-- An HTTP response sent by the backend: a status and a JSON body (`none`
for the body-less `res.status(204).send()`). -/
structure HttpResponse where
  status : Nat
  body : Option JVal
deriving Repr

/-- One outbound HTTP call to the Cloud Function (`client.request` in
`index.js`). -/
structure DownstreamCall where
  url : String
  payload : JObj
deriving Repr

/-- The outbound effects of handling one request: audiences for which an
ID token was requested (`auth.getIdTokenClient`) and downstream calls
issued. -/
structure Effects where
  tokenAudiences : List String
  calls : List DownstreamCall
deriving Repr

/-- No credential request and no downstream call. -/
def noEffects : Effects := ⟨[], []⟩

/-- Oracle for the downstream Cloud Function's behaviour on one call:
it resolves with a status and data, rejects with an error carrying a
response (`error.response`), or rejects with no response (network
failure). -/
inductive Downstream where
  | ok (status : Nat) (data : JVal)
  | errResp (status : Nat) (data : JVal)
  | errNoResp
deriving Repr

/-- The `POST /api/query` handler, lines 145-193 of
`src/backend/index.js`, as a function of the `FUNCTION_URL` environment
variable, the downstream oracle, and the request body's `entity` and
`query` fields (`none` models an absent/falsy field).  Returns the HTTP
response together with the recorded outbound effects. -/
def apiQuery (functionUrl : Option String) (ds : Downstream)
    (entity? : Option Entity) (query? : Option JObj) :
    HttpResponse × Effects :=
  match entity?, query? with
  | none, _ =>
      (⟨400, some (errBody "Invalid payload. \"entity\" and \"query\" are required.")⟩, noEffects)
  | some _, none =>
      (⟨400, some (errBody "Invalid payload. \"entity\" and \"query\" are required.")⟩, noEffects)
  | some entity, some query =>
      if entity.source_of_system = "SCM-BQ" then
        match functionUrl with
        | none =>
            (⟨500, some (errBody "Query function URL is not configured on the backend.")⟩, noEffects)
        | some url =>
            match parseSourceDetails entity.source_details with
            | none =>
                -- JSON.parse threw; the catch sees an error with no
                -- `.response`, before any token request or call.
                (⟨500, some (errBody "Failed to execute BigQuery query via proxy.")⟩, noEffects)
            | some sourceDetails =>
                let payload := mkFunctionPayload sourceDetails query
                let eff : Effects := ⟨[url], [⟨url, payload⟩]⟩
                match ds with
                | .ok st dat => (⟨st, some dat⟩, eff)
                | .errResp st dat => (⟨st, some dat⟩, eff)
                | .errNoResp =>
                    (⟨500, some (errBody "Failed to execute BigQuery query via proxy.")⟩, eff)
      else if entity.source_of_system = "SAP-BW" then
        (⟨501, some (errBody "SAP-BW querying is not implemented yet.")⟩, noEffects)
      else
        (⟨400, some (errBody ("Unsupported source system: " ++ entity.source_of_system))⟩, noEffects)

/-- A row of the BigQuery `data_explorer_config.entities` table; the POST
handler stores `source_details` as `JSON.stringify(source_details)`, so the
stored field is a string. -/
structure StoredEntity where
  entity_name : String
  display_name : String
  source_of_system : String
  source_details : String
deriving Repr, DecidableEq

/-- The configuration store (the BigQuery table), keyed by
`entity_name`. -/
abbrev Registry := List StoredEntity

/-- Whether a key is present in the store. -/
def hasKey (reg : Registry) (name : String) : Bool :=
  reg.any (fun r => r.entity_name == name)

/-- A JavaScript falsiness test for an optional string request field:
absent, null or the empty string are all falsy. -/
def strMissing : Option String → Bool
  | none => true
  | some s => s = ""

/-- Request body of `POST /api/config`; `none` models an absent field.
`source_details` is a flat string-valued JSON document, the shape used
throughout the repository. -/
structure PostBody where
  entity_name : Option String
  display_name : Option String
  source_of_system : Option String
  source_details : Option (List (String × String))
deriving Repr

/-- Request body of `PUT /api/config/:entity_name` (the `entity_name`
comes from the path, not the body). -/
structure PutBody where
  display_name : Option String
  source_of_system : Option String
  source_details : Option (List (String × String))
deriving Repr

/-- The missing-field test of the PUT handlers:
`!display_name || !source_of_system || !source_details`. -/
def putMissing (b : PutBody) : Bool :=
  strMissing b.display_name || strMissing b.source_of_system
    || b.source_details.isNone

/-- The `POST /api/config` handler, lines 66-88 of
`src/backend/index.js`: rejects missing fields with 400, stores the new
row with stringified `source_details`, returns 409 when the insert fails
with ALREADY_EXISTS (`error.code === 6`), otherwise 201 with the new
entity. -/
def postConfig (reg : Registry) (b : PostBody) : Registry × HttpResponse :=
  match b.entity_name, b.display_name, b.source_of_system, b.source_details with
  | some en, some dn, some ss, some sd =>
      if en = "" ∨ dn = "" ∨ ss = "" then
        (reg, ⟨400, some (errBody "Missing required fields: entity_name, display_name, source_of_system, source_details.")⟩)
      else if hasKey reg en then
        (reg, ⟨409, some (errBody ("Configuration entity " ++ squote ++ en ++ squote ++ " already exists."))⟩)
      else
        let newEntity : StoredEntity := ⟨en, dn, ss, serializeFlat sd⟩
        (reg ++ [newEntity],
         ⟨201, some (.jobj [("entity_name", .jstr en),
                            ("display_name", .jstr dn),
                            ("source_of_system", .jstr ss),
                            ("source_details", .jstr (serializeFlat sd))])⟩)
  | _, _, _, _ =>
      (reg, ⟨400, some (errBody "Missing required fields: entity_name, display_name, source_of_system, source_details.")⟩)

/-- The row update performed by the UPDATE statement of the PUT handler:
rows matching the WHERE clause get the three SET fields; `entity_name` is
not changed. -/
def updateRow (name dn ss sdJson : String) (r : StoredEntity) : StoredEntity :=
  if r.entity_name = name then
    { r with display_name := dn, source_of_system := ss, source_details := sdJson }
  else r

/-- The `PUT /api/config/:entity_name` handler, lines 90-125 of
`src/backend/index.js`: 400 on missing fields; runs the parameterized
UPDATE; 404 when `numDmlAffectedRows` is zero; otherwise 200 with a
success message. -/
def putConfig (reg : Registry) (name : String) (b : PutBody) :
    Registry × HttpResponse :=
  match b.display_name, b.source_of_system, b.source_details with
  | some dn, some ss, some sd =>
      if dn = "" ∨ ss = "" then
        (reg, ⟨400, some (errBody "Missing required fields for update.")⟩)
      else if reg.countP (fun r => r.entity_name == name) = 0 then
        (reg.map (updateRow name dn ss (serializeFlat sd)),
         ⟨404, some (errBody ("Entity " ++ squote ++ name ++ squote ++ " not found."))⟩)
      else
        (reg.map (updateRow name dn ss (serializeFlat sd)),
         ⟨200, some (msgBody ("Entity " ++ squote ++ name ++ squote ++ " updated successfully."))⟩)
  | _, _, _ =>
      (reg, ⟨400, some (errBody "Missing required fields for update.")⟩)

/-- The `DELETE /api/config/:entity_name` handler, lines 127-142 of
`src/backend/index.js`: runs the parameterized DELETE; 404 when
`numDmlAffectedRows` is zero; otherwise `res.status(204).send()`. -/
def deleteConfig (reg : Registry) (name : String) : Registry × HttpResponse :=
  if reg.countP (fun r => r.entity_name == name) = 0 then
    (reg.filter (fun r => !(r.entity_name == name)),
     ⟨404, some (errBody ("Entity " ++ squote ++ name ++ squote ++ " not found."))⟩)
  else
    (reg.filter (fun r => !(r.entity_name == name)), ⟨204, none⟩)

namespace Legacy

/-- The `PUT /api/config/:entity_name` handler of the alternate backend
copy, lines 58-95 of `src/unnamed/part_003`: a MERGE with only a WHEN
MATCHED branch, after which the handler unconditionally answers 200; the
affected-row count is never inspected. -/
def putConfig (reg : Registry) (name : String) (b : PutBody) :
    Registry × HttpResponse :=
  match b.display_name, b.source_of_system, b.source_details with
  | some dn, some ss, some sd =>
      if dn = "" ∨ ss = "" then
        (reg, ⟨400, some (errBody "Missing required fields for update.")⟩)
      else
        (reg.map (updateRow name dn ss (serializeFlat sd)),
         ⟨200, some (msgBody ("Entity " ++ squote ++ name ++ squote ++ " updated successfully."))⟩)
  | _, _, _ =>
      (reg, ⟨400, some (errBody "Missing required fields for update.")⟩)

/-- The `DELETE /api/config/:entity_name` handler of the alternate backend
copy, lines 97-112 of `src/unnamed/part_003`: runs the DELETE and always
answers 204, whether or not any row matched. -/
def deleteConfig (reg : Registry) (name : String) : Registry × HttpResponse :=
  (reg.filter (fun r => !(r.entity_name == name)), ⟨204, none⟩)

end Legacy

/-- A string without embedded double quotes (the fragment of strings on
which the modelled JSON.stringify needs no escaping). -/
abbrev cleanStr (s : String) : Prop := ∀ c ∈ s.data, c ≠ dq

/-- A flat string-valued document whose keys and values contain no double
quote. -/
abbrev cleanDoc (o : List (String × String)) : Prop :=
  ∀ p ∈ o, cleanStr p.1 ∧ cleanStr p.2

/-- The warehouse `source_details` of the `Sales_Report` entity from the
repository's mock configuration (src/unnamed/part_000). -/
def salesDetails : List (String × String) :=
  [("projectId", "your-gcp-project"), ("datasetId", "sales_data"),
   ("tableId", "sales_report_2024")]

/-- The `Sales_Report` entity with structured `source_details`. -/
def salesEntity : Entity :=
  ⟨"Sales_Report", "Sales Report", "SCM-BQ", .objVal (toJObj salesDetails)⟩

/-- The `Legacy_Finance_Data` entity (SAP-BW source kind) from the
repository's mock configuration. -/
def sapEntity : Entity :=
  ⟨"Legacy_Finance_Data", "Legacy Finance Data", "SAP-BW",
   .objVal [("queryName", .jstr "Z_FIN_Q001")]⟩

/-- An entity registered with a source kind the router has no adapter
for. -/
def unknownKindEntity : Entity :=
  ⟨"Mystery_Feed", "Mystery Feed", "FTP-CSV", .objVal []⟩

/-- The declared column set of `Sales_Report` (MOCK_COLUMNS in the
frontend, src/unnamed/part_000). -/
def salesReportColumns : List String :=
  ["product_id", "sale_date", "amount", "region", "customer_id"]

/-- A well-formed caller query against `Sales_Report` using only declared
columns. -/
def sampleQuery : JObj :=
  [("columns", .jarr [.jstr "product_id", .jstr "amount"]),
   ("filters", .jarr [.jobj [("column", .jstr "amount"),
                             ("operator", .jstr ">"),
                             ("value", .jstr "100")]]),
   ("limit", .jnum 10)]

/-- A caller query referencing a column that is not in the declared column
set of any entity. -/
def badColumnQuery : JObj :=
  [("columns", .jarr [.jstr "no_such_column"]), ("limit", .jnum 10)]

/-- `sampleQuery` with an extra caller-supplied `tableId` field. -/
def overrideQuery : JObj :=
  sampleQuery ++ [("tableId", .jstr "attacker_table")]

/-- A concrete Cloud Function URL for the `FUNCTION_URL` environment
variable. -/
def fnUrl : String := "https://query-bigquery-abcdef.a.run.app"

/-- A downstream oracle that resolves successfully. -/
def okDownstream : Downstream :=
  .ok 200 (.jobj [("success", .jbool true), ("data", .jarr [])])

/-- A downstream error body carrying internal detail (a stack trace
fragment), as a backend might return it. -/
def leakedDetail : JVal :=
  .jobj [("error", .jstr "Traceback (most recent call last): table sales_report_2024 missing")]

/-- A complete PUT request body. -/
def fullPutBody : PutBody :=
  ⟨some "Sales Report v2", some "SCM-BQ", some salesDetails⟩

/-- A complete POST request body for `Sales_Report`. -/
def fullPostBody : PostBody :=
  ⟨some "Sales_Report", some "Sales Report", some "SCM-BQ", some salesDetails⟩

/-- A one-row registry holding `Sales_Report`. -/
def sampleRegistry : Registry :=
  [⟨"Sales_Report", "Sales Report", "SCM-BQ", serializeFlat salesDetails⟩]

/-- C10: for every warehouse-path query received while `FUNCTION_URL` is
unset, the router answers 500 with a server-configuration error and makes
no outbound call of any kind (no token request, no downstream call). -/
theorem query_without_function_url_rejected_locally
    (ds : Downstream) (e : Entity) (q : JObj)
    (h : e.source_of_system = "SCM-BQ") :
    apiQuery none ds (some e) (some q) =
      (⟨500, some (errBody "Query function URL is not configured on the backend.")⟩,
       noEffects) := by
  simp [apiQuery, h]

/-- Witness for C10 at the concrete `Sales_Report` entity. -/
theorem query_without_function_url_rejected_locally_witness :
    salesEntity.source_of_system = "SCM-BQ" ∧
    apiQuery none okDownstream (some salesEntity) (some sampleQuery) =
      (⟨500, some (errBody "Query function URL is not configured on the backend.")⟩,
       noEffects) :=
  ⟨rfl, query_without_function_url_rejected_locally okDownstream salesEntity sampleQuery rfl⟩

/-- C7 counterexample: the SAP-BW (legacy) path is NOT a pass-through:
at a concrete SAP-BW entity the router answers 501 "not implemented" and
forwards nothing. -/
theorem sap_bw_query_answered_not_implemented :
    apiQuery (some fnUrl) okDownstream (some sapEntity) (some sampleQuery) =
      (⟨501, some (errBody "SAP-BW querying is not implemented yet.")⟩, noEffects) :=
  rfl

/-- C7 (amended): for every query whose entity has source kind SAP-BW the
router rejects the request as unimplemented (501) and contacts no
backend. -/
theorem sap_bw_query_rejected_unimplemented
    (fu : Option String) (ds : Downstream) (e : Entity) (q : JObj)
    (h : e.source_of_system = "SAP-BW") :
    apiQuery fu ds (some e) (some q) =
      (⟨501, some (errBody "SAP-BW querying is not implemented yet.")⟩, noEffects) := by
  simp [apiQuery, h]

/-- Witness for the amended C7 at the concrete SAP-BW entity. -/
theorem sap_bw_query_rejected_unimplemented_witness :
    sapEntity.source_of_system = "SAP-BW" ∧
    apiQuery (some fnUrl) okDownstream (some sapEntity) (some sampleQuery) =
      (⟨501, some (errBody "SAP-BW querying is not implemented yet.")⟩, noEffects) :=
  ⟨rfl, sap_bw_query_rejected_unimplemented (some fnUrl) okDownstream sapEntity sampleQuery rfl⟩

/-- C8: a source kind with no adapter is rejected at dispatch with an
"unsupported source" error naming the kind, no backend is contacted, and
the response differs from the router's runtime backend-failure response
(status 400 versus 500, and a different class message). -/
theorem unsupported_source_kind_rejected_at_dispatch
    (fu : Option String) (ds : Downstream) (e : Entity) (q : JObj)
    (h1 : e.source_of_system ≠ "SCM-BQ") (h2 : e.source_of_system ≠ "SAP-BW") :
    apiQuery fu ds (some e) (some q) =
      (⟨400, some (errBody ("Unsupported source system: " ++ e.source_of_system))⟩,
       noEffects) ∧
    (⟨400, some (errBody ("Unsupported source system: " ++ e.source_of_system))⟩ : HttpResponse) ≠
      ⟨500, some (errBody "Failed to execute BigQuery query via proxy.")⟩ := by
  refine ⟨by simp [apiQuery, h1, h2], ?_⟩
  intro hcontra
  have h400 : (400 : Nat) = 500 := congrArg HttpResponse.status hcontra
  exact absurd h400 (by decide)

/-- Witness for C8 at a concrete entity of kind FTP-CSV. -/
theorem unsupported_source_kind_rejected_at_dispatch_witness :
    unknownKindEntity.source_of_system ≠ "SCM-BQ" ∧
    unknownKindEntity.source_of_system ≠ "SAP-BW" ∧
    (apiQuery (some fnUrl) okDownstream (some unknownKindEntity) (some sampleQuery) =
      (⟨400, some (errBody ("Unsupported source system: " ++ unknownKindEntity.source_of_system))⟩,
       noEffects) ∧
     (⟨400, some (errBody ("Unsupported source system: " ++ unknownKindEntity.source_of_system))⟩ : HttpResponse) ≠
       ⟨500, some (errBody "Failed to execute BigQuery query via proxy.")⟩) :=
  ⟨by decide, by decide,
   unsupported_source_kind_rejected_at_dispatch (some fnUrl) okDownstream
     unknownKindEntity sampleQuery (by decide) (by decide)⟩

/-- C4 counterexample: the router does not resolve entities against the
registry.  With an empty registry (so `Sales_Report` is an unknown
entity_name), the query is still dispatched: the credential broker IS
invoked and the downstream answer (200) is returned instead of an unknown
entity failure. -/
theorem unknown_entity_query_still_dispatched :
    hasKey [] "Sales_Report" = false ∧
    (apiQuery (some fnUrl) okDownstream (some salesEntity) (some sampleQuery)).2.tokenAudiences = [fnUrl] ∧
    (apiQuery (some fnUrl) okDownstream (some salesEntity) (some sampleQuery)).1.status = 200 :=
  ⟨rfl, rfl, rfl⟩

/-- C4 (amended): the router performs no registry lookup: it dispatches on
the caller-supplied entity object; only a request missing `entity` or
`query` is rejected locally (400, no backend contact, no credential
request), and the outcome is independent of the `entity_name` carried by
the entity, so an unknown name is never detected. -/
theorem router_performs_no_registry_lookup
    (fu : Option String) (ds : Downstream) (e : Entity) (q : JObj)
    (n1 n2 dn ss : String) (sd : SDetails) :
    apiQuery fu ds none (some q) =
      (⟨400, some (errBody "Invalid payload. \"entity\" and \"query\" are required.")⟩, noEffects) ∧
    apiQuery fu ds (some e) none =
      (⟨400, some (errBody "Invalid payload. \"entity\" and \"query\" are required.")⟩, noEffects) ∧
    apiQuery fu ds (some ⟨n1, dn, ss, sd⟩) (some q) =
      apiQuery fu ds (some ⟨n2, dn, ss, sd⟩) (some q) :=
  ⟨rfl, rfl, rfl⟩

/-- C2: the table coordinates of the downstream payload are NOT taken
exclusively from `source_details`: the spread of the caller's `query`
comes after them in the payload literal, so two requests differing only in
a caller-supplied `tableId` query field produce payloads with different
table coordinates. -/
theorem caller_query_field_overrides_table_coordinates :
    ((apiQuery (some fnUrl) okDownstream (some salesEntity) (some sampleQuery)).2.calls.head?.map
        (fun c => jget c.payload "tableId")) = some (some (.jstr "sales_report_2024")) ∧
    ((apiQuery (some fnUrl) okDownstream (some salesEntity) (some overrideQuery)).2.calls.head?.map
        (fun c => jget c.payload "tableId")) = some (some (.jstr "attacker_table")) ∧
    (JVal.jstr "sales_report_2024") ≠ .jstr "attacker_table" :=
  ⟨rfl, rfl, by simp⟩

/-- C3 counterexample: a downstream failure carrying a response is
forwarded to the caller with the downstream's raw error body verbatim
(here a stack-trace fragment), not a class-level message. -/
theorem downstream_error_body_forwarded_verbatim :
    (apiQuery (some fnUrl) (.errResp 403 leakedDetail) (some salesEntity) (some sampleQuery)).1 =
      ⟨403, some leakedDetail⟩ ∧
    leakedDetail ≠ errBody "Failed to execute BigQuery query via proxy." :=
  ⟨rfl, by simp [leakedDetail, errBody]⟩

/-- C3 (amended): when the downstream call fails with a response, the
router forwards the downstream status and raw error body verbatim to the
caller; only a failure with no response at all yields the class-level 500
message (full detail goes to logs in both cases). -/
theorem downstream_failure_passthrough
    (url : String) (e : Entity) (q sd : JObj) (st : Nat) (dat : JVal)
    (h1 : e.source_of_system = "SCM-BQ")
    (h2 : parseSourceDetails e.source_details = some sd) :
    (apiQuery (some url) (.errResp st dat) (some e) (some q)).1 = ⟨st, some dat⟩ ∧
    (apiQuery (some url) .errNoResp (some e) (some q)).1 =
      ⟨500, some (errBody "Failed to execute BigQuery query via proxy.")⟩ := by
  constructor <;> simp [apiQuery, h1, h2]

/-- Witness for the amended C3 at the concrete `Sales_Report` entity. -/
theorem downstream_failure_passthrough_witness :
    salesEntity.source_of_system = "SCM-BQ" ∧
    parseSourceDetails salesEntity.source_details = some (toJObj salesDetails) ∧
    ((apiQuery (some fnUrl) (.errResp 403 leakedDetail) (some salesEntity) (some sampleQuery)).1 =
       ⟨403, some leakedDetail⟩ ∧
     (apiQuery (some fnUrl) .errNoResp (some salesEntity) (some sampleQuery)).1 =
       ⟨500, some (errBody "Failed to execute BigQuery query via proxy.")⟩) :=
  ⟨rfl, rfl,
   downstream_failure_passthrough fnUrl salesEntity sampleQuery (toJObj salesDetails)
     403 leakedDetail rfl rfl⟩

/-- C1 counterexample: a query whose `columns` reference a column that is
not in the entity's declared column set is NOT rejected: the router
requests a credential and issues the downstream call anyway, and the
response is the downstream's, not a validation error. -/
theorem undeclared_column_query_still_calls_downstream :
    "no_such_column" ∉ salesReportColumns ∧
    (apiQuery (some fnUrl) okDownstream (some salesEntity) (some badColumnQuery)).2.tokenAudiences = [fnUrl] ∧
    (apiQuery (some fnUrl) okDownstream (some salesEntity) (some badColumnQuery)).2.calls.length = 1 ∧
    (apiQuery (some fnUrl) okDownstream (some salesEntity) (some badColumnQuery)).1.status = 200 :=
  ⟨by decide, rfl, rfl, rfl⟩

/-- C1 (amended): the router performs no column validation at all: every
request carrying an entity of kind SCM-BQ together with any query object is
forwarded downstream unchanged (whatever columns it references), and the
only check preceding the downstream call is the presence of `entity` and
`query`, whose absence is rejected with 400 and no downstream effect. -/
theorem router_forwards_queries_without_column_validation
    (url : String) (ds : Downstream) (e : Entity) (q sd : JObj)
    (h1 : e.source_of_system = "SCM-BQ")
    (h2 : parseSourceDetails e.source_details = some sd) :
    (apiQuery (some url) ds (some e) (some q)).2.calls = [⟨url, mkFunctionPayload sd q⟩] ∧
    ∀ (fu : Option String) (ds2 : Downstream) (q2 : JObj),
      (apiQuery fu ds2 none (some q2)).2 = noEffects ∧
      (apiQuery fu ds2 none (some q2)).1.status = 400 := by
  refine ⟨?_, fun fu ds2 q2 => ⟨rfl, rfl⟩⟩
  cases ds <;> simp [apiQuery, h1, h2]

/-- Witness for the amended C1 at the undeclared-column query. -/
theorem router_forwards_queries_without_column_validation_witness :
    salesEntity.source_of_system = "SCM-BQ" ∧
    parseSourceDetails salesEntity.source_details = some (toJObj salesDetails) ∧
    ((apiQuery (some fnUrl) okDownstream (some salesEntity) (some badColumnQuery)).2.calls =
       [⟨fnUrl, mkFunctionPayload (toJObj salesDetails) badColumnQuery⟩] ∧
     ∀ (fu : Option String) (ds2 : Downstream) (q2 : JObj),
       (apiQuery fu ds2 none (some q2)).2 = noEffects ∧
       (apiQuery fu ds2 none (some q2)).1.status = 400) :=
  ⟨rfl, rfl,
   router_forwards_queries_without_column_validation fnUrl okDownstream salesEntity
     badColumnQuery (toJObj salesDetails) rfl rfl⟩

/-- A row not matching the WHERE clause is unchanged by the UPDATE. -/
theorem updateRow_not_matching (name dn ss sj : String) (r : StoredEntity)
    (h : (r.entity_name == name) = false) :
    updateRow name dn ss sj r = r := by
  have hne : r.entity_name ≠ name := by simpa using h
  simp [updateRow, hne]

/-- The UPDATE never changes a row's key. -/
theorem updateRow_entity_name (name dn ss sj : String) (r : StoredEntity) :
    (updateRow name dn ss sj r).entity_name = r.entity_name := by
  unfold updateRow
  split <;> rfl

/-- Applying the same UPDATE twice to a row gives the same row as applying
it once. -/
theorem updateRow_idem (name dn ss sj : String) (r : StoredEntity) :
    updateRow name dn ss sj (updateRow name dn ss sj r) = updateRow name dn ss sj r := by
  by_cases h : r.entity_name = name <;> simp [updateRow, h]

/-- An UPDATE over a store with no matching row leaves the store
unchanged. -/
theorem map_updateRow_no_match (reg : Registry) (name dn ss sj : String)
    (h : ∀ r ∈ reg, (r.entity_name == name) = false) :
    reg.map (updateRow name dn ss sj) = reg := by
  induction reg with
  | nil => rfl
  | cons a l ih =>
      simp only [List.map_cons]
      rw [updateRow_not_matching name dn ss sj a (h a (by simp)),
          ih (fun r hr => h r (by simp [hr]))]

/-- A DELETE over a store with no matching row leaves the store
unchanged. -/
theorem filter_no_match (reg : Registry) (name : String)
    (h : ∀ r ∈ reg, (r.entity_name == name) = false) :
    reg.filter (fun r => !(r.entity_name == name)) = reg := by
  induction reg with
  | nil => rfl
  | cons a l ih =>
      simp only [List.filter_cons, h a (by simp), Bool.not_false, if_pos]
      rw [ih (fun r hr => h r (by simp [hr]))]

/-- The affected-row count of an UPDATE is invariant under a previous
application of the same UPDATE (the key is preserved). -/
theorem countP_map_updateRow (reg : Registry) (name dn ss sj : String) :
    (reg.map (updateRow name dn ss sj)).countP (fun r => r.entity_name == name) =
      reg.countP (fun r => r.entity_name == name) := by
  induction reg with
  | nil => rfl
  | cons a l ih =>
      simp [List.countP_cons, ih, updateRow_entity_name]

/-- C5 counterexample: the alternate backend copy (src/unnamed/part_003)
silently reports success for update and delete on a key absent from the
store: PUT answers 200 "updated successfully" and DELETE answers 204 even
though no row matched. -/
theorem legacy_update_delete_unknown_key_report_success :
    hasKey [] "ghost" = false ∧
    Legacy.putConfig [] "ghost" fullPutBody =
      ([], ⟨200, some (msgBody ("Entity " ++ squote ++ "ghost" ++ squote ++ " updated successfully."))⟩) ∧
    Legacy.deleteConfig [] "ghost" = ([], ⟨204, none⟩) :=
  ⟨rfl, rfl, rfl⟩

/-- C5 (amended): the main backend (src/backend/index.js) reports 404
not-found for update-by-key and delete-by-key on an unknown entity_name
and leaves the store unchanged; the alternate backend copy
(src/unnamed/part_003) instead reports success regardless. -/
theorem update_delete_unknown_key_not_found
    (reg : Registry) (name dn ss : String) (sd : List (String × String))
    (hk : hasKey reg name = false) (hdn : dn ≠ "") (hss : ss ≠ "") :
    putConfig reg name ⟨some dn, some ss, some sd⟩ =
      (reg, ⟨404, some (errBody ("Entity " ++ squote ++ name ++ squote ++ " not found."))⟩) ∧
    deleteConfig reg name =
      (reg, ⟨404, some (errBody ("Entity " ++ squote ++ name ++ squote ++ " not found."))⟩) := by
  have hall : ∀ r ∈ reg, (r.entity_name == name) = false := by
    intro r hr
    by_contra hc
    have : reg.any (fun r => r.entity_name == name) = true :=
      List.any_eq_true.mpr ⟨r, hr, by simpa using hc⟩
    simp [hasKey, this] at hk
  have hcount : reg.countP (fun r => r.entity_name == name) = 0 :=
    List.countP_eq_zero.mpr (fun a ha => by simp [hall a ha])
  constructor
  · simp [putConfig, hdn, hss, hcount,
      map_updateRow_no_match reg name dn ss (serializeFlat sd) hall]
  · simp [deleteConfig, hcount, filter_no_match reg name hall]

/-- Witness for the amended C5: updating and deleting the unknown key
"ghost" in the one-row sample registry reports 404, not success. -/
theorem update_delete_unknown_key_not_found_witness :
    hasKey sampleRegistry "ghost" = false ∧
    (putConfig sampleRegistry "ghost" ⟨some "Sales Report v2", some "SCM-BQ", some salesDetails⟩ =
      (sampleRegistry, ⟨404, some (errBody ("Entity " ++ squote ++ "ghost" ++ squote ++ " not found."))⟩) ∧
     deleteConfig sampleRegistry "ghost" =
      (sampleRegistry, ⟨404, some (errBody ("Entity " ++ squote ++ "ghost" ++ squote ++ " not found."))⟩)) :=
  ⟨by decide,
   update_delete_unknown_key_not_found sampleRegistry "ghost" "Sales Report v2" "SCM-BQ"
     salesDetails (by decide) (by decide) (by decide)⟩

/-- C6 counterexample: the registry's create operation (POST /api/config)
is not an idempotent upsert: applying it twice with the same entity
content succeeds the first time (201) and fails with Conflict (409) the
second time, instead of replacing the record in place. -/
theorem second_create_with_same_content_conflicts :
    (postConfig [] fullPostBody).2.status = 201 ∧
    postConfig (postConfig [] fullPostBody).1 fullPostBody =
      ((postConfig [] fullPostBody).1,
       ⟨409, some (errBody ("Configuration entity " ++ squote ++ "Sales_Report" ++ squote ++ " already exists."))⟩) :=
  ⟨rfl, rfl⟩

/-- C6 (amended): there is no idempotent upsert: create (POST) on an
existing entity_name fails with Conflict and update (PUT) on a missing one
fails with NotFound; only the update path replaces in place, and it is
idempotent: applied twice with the same content to an existing record it
yields the same stored registry and the same 200 response. -/
theorem update_same_content_idempotent
    (reg : Registry) (name dn ss : String) (sd : List (String × String))
    (hk : hasKey reg name = true) (hdn : dn ≠ "") (hss : ss ≠ "") :
    putConfig (putConfig reg name ⟨some dn, some ss, some sd⟩).1 name ⟨some dn, some ss, some sd⟩ =
      putConfig reg name ⟨some dn, some ss, some sd⟩ := by
  have hex : ∃ r ∈ reg, r.entity_name = name := by
    simpa [hasKey, List.any_eq_true] using hk
  have hpos : reg.countP (fun r => r.entity_name == name) ≠ 0 := by
    intro h0
    obtain ⟨r, hr, hrn⟩ := hex
    exact (List.countP_eq_zero.mp h0 r hr) (by simp [hrn])
  have hpos2 : (reg.map (updateRow name dn ss (serializeFlat sd))).countP
      (fun r => r.entity_name == name) ≠ 0 := by
    rw [countP_map_updateRow]
    exact hpos
  have hcond : ¬(dn = "" ∨ ss = "") := by
    intro h
    cases h with
    | inl h => exact hdn h
    | inr h => exact hss h
  have hmapmap :
      (reg.map (updateRow name dn ss (serializeFlat sd))).map (updateRow name dn ss (serializeFlat sd)) =
        reg.map (updateRow name dn ss (serializeFlat sd)) := by
    rw [List.map_map]
    exact List.map_congr_left (fun a _ => updateRow_idem name dn ss (serializeFlat sd) a)
  have hif1 : putConfig reg name ⟨some dn, some ss, some sd⟩ =
      (reg.map (updateRow name dn ss (serializeFlat sd)),
       ⟨200, some (msgBody ("Entity " ++ squote ++ name ++ squote ++ " updated successfully."))⟩) := by
    simp only [putConfig]
    rw [if_neg hcond, if_neg hpos]
  have hif2 : putConfig (reg.map (updateRow name dn ss (serializeFlat sd))) name ⟨some dn, some ss, some sd⟩ =
      ((reg.map (updateRow name dn ss (serializeFlat sd))).map (updateRow name dn ss (serializeFlat sd)),
       ⟨200, some (msgBody ("Entity " ++ squote ++ name ++ squote ++ " updated successfully."))⟩) := by
    simp only [putConfig]
    rw [if_neg hcond, if_neg hpos2]
  calc putConfig (putConfig reg name ⟨some dn, some ss, some sd⟩).1 name ⟨some dn, some ss, some sd⟩
      = putConfig (reg.map (updateRow name dn ss (serializeFlat sd))) name ⟨some dn, some ss, some sd⟩ := by
        rw [hif1]
    _ = ((reg.map (updateRow name dn ss (serializeFlat sd))).map (updateRow name dn ss (serializeFlat sd)),
         ⟨200, some (msgBody ("Entity " ++ squote ++ name ++ squote ++ " updated successfully."))⟩) := hif2
    _ = (reg.map (updateRow name dn ss (serializeFlat sd)),
         ⟨200, some (msgBody ("Entity " ++ squote ++ name ++ squote ++ " updated successfully."))⟩) := by
        rw [hmapmap]
    _ = putConfig reg name ⟨some dn, some ss, some sd⟩ := hif1.symm

/-- Witness for the amended C6: updating `Sales_Report` twice with the
same content in the sample registry equals updating it once. -/
theorem update_same_content_idempotent_witness :
    hasKey sampleRegistry "Sales_Report" = true ∧
    putConfig (putConfig sampleRegistry "Sales_Report" ⟨some "Sales Report v2", some "SCM-BQ", some salesDetails⟩).1
        "Sales_Report" ⟨some "Sales Report v2", some "SCM-BQ", some salesDetails⟩ =
      putConfig sampleRegistry "Sales_Report" ⟨some "Sales Report v2", some "SCM-BQ", some salesDetails⟩ :=
  ⟨by decide,
   update_same_content_idempotent sampleRegistry "Sales_Report" "Sales Report v2" "SCM-BQ"
     salesDetails (by decide) (by decide) (by decide)⟩

/-- Character data of a serialized string literal. -/
theorem serializeStrLit_data (s : String) :
    (serializeStrLit s).data = dq :: (s.data ++ [dq]) := by
  simp [serializeStrLit, String.data_append, String.singleton]

/-- Character data of a one-member member list. -/
theorem serializePairs_one_data (p : String × String) :
    (serializePairs [p]).data =
      (serializeStrLit p.1).data ++ ':' :: (serializeStrLit p.2).data := by
  simp [serializePairs, String.data_append]

/-- Character data of a multi-member member list. -/
theorem serializePairs_cons_data (p q : String × String) (t : List (String × String)) :
    (serializePairs (p :: q :: t)).data =
      (serializeStrLit p.1).data ++
        ':' :: ((serializeStrLit p.2).data ++ ',' :: (serializePairs (q :: t)).data) := by
  simp [serializePairs, String.data_append]

/-- Scanning a quote-free run followed by a quote splits exactly at the
quote. -/
theorem scan_until_quote (l rest : List Char) (h : ∀ c ∈ l, c ≠ dq) :
    (l ++ dq :: rest).takeWhile notQuote = l ∧
    (l ++ dq :: rest).dropWhile notQuote = dq :: rest := by
  have hdq : notQuote dq = false := by simp [notQuote]
  induction l with
  | nil => constructor <;> simp [List.takeWhile_cons, List.dropWhile_cons, hdq]
  | cons a l ih =>
      have ha : notQuote a = true := by
        have := h a (by simp)
        simp [notQuote, this]
      have ih' := ih (fun c hc => h c (by simp [hc]))
      constructor
      · rw [List.cons_append, List.takeWhile_cons, if_pos ha, ih'.1]
      · rw [List.cons_append, List.dropWhile_cons, if_pos ha, ih'.2]

/-- Parsing a serialized clean string consumes exactly the serialized
characters and returns the string. -/
theorem parseStringLit_round (s : String) (hs : cleanStr s) (rest : List Char) :
    parseStringLit ((serializeStrLit s).data ++ rest) = some (s, rest) := by
  have hd : (serializeStrLit s).data ++ rest = dq :: (s.data ++ dq :: rest) := by
    rw [serializeStrLit_data]
    simp
  have hscan := scan_until_quote s.data rest hs
  have hmk : String.mk s.data = s := rfl
  rw [hd]
  simp [parseStringLit, hscan.1, hscan.2, hmk]

/-- Parsing a serialized clean member consumes exactly its characters. -/
theorem parsePair_round (k v : String) (hk : cleanStr k) (hv : cleanStr v)
    (rest : List Char) :
    parsePair ((serializeStrLit k).data ++ ':' :: ((serializeStrLit v).data ++ rest)) =
      some ((k, .jstr v), rest) := by
  simp [parsePair, parseStringLit_round k hk, parseStringLit_round v hv]

/-- Parsing the serialized member list of a non-empty clean document up to
the closing brace returns exactly the document's fields, for any
sufficient fuel. -/
theorem parsePairs_round (o : List (String × String)) (fuel : Nat) (rest : List Char)
    (hne : o ≠ []) (hfuel : o.length ≤ fuel) (hclean : cleanDoc o) :
    parsePairs fuel ((serializePairs o).data ++ rbrace :: rest) =
      some (toJObj o, rest) := by
  induction o generalizing fuel rest with
  | nil => exact absurd rfl hne
  | cons p t ih =>
      cases fuel with
      | zero => simp at hfuel
      | succ fuel =>
          have hk : cleanStr p.1 := (hclean p (by simp)).1
          have hv : cleanStr p.2 := (hclean p (by simp)).2
          cases t with
          | nil =>
              rw [serializePairs_one_data]
              have hassoc :
                  ((serializeStrLit p.1).data ++ ':' :: (serializeStrLit p.2).data)
                      ++ rbrace :: rest =
                    (serializeStrLit p.1).data ++
                      ':' :: ((serializeStrLit p.2).data ++ rbrace :: rest) := by
                simp
              have hnc : ¬ (rbrace = ',') := by decide
              rw [hassoc]
              simp [parsePairs, parsePair_round p.1 p.2 hk hv (rbrace :: rest), hnc,
                toJObj]
          | cons q t' =>
              rw [serializePairs_cons_data]
              have hassoc :
                  ((serializeStrLit p.1).data ++
                      ':' :: ((serializeStrLit p.2).data ++ ',' :: (serializePairs (q :: t')).data))
                      ++ rbrace :: rest =
                    (serializeStrLit p.1).data ++
                      ':' :: ((serializeStrLit p.2).data ++
                        ',' :: ((serializePairs (q :: t')).data ++ rbrace :: rest)) := by
                simp
              have hlen : (q :: t').length ≤ fuel := by
                simp only [List.length_cons] at hfuel ⊢
                omega
              have ihx := ih fuel rest (by simp) hlen (fun r hr => hclean r (by simp [hr]))
              rw [hassoc]
              simp [parsePairs,
                parsePair_round p.1 p.2 hk hv
                  (',' :: ((serializePairs (q :: t')).data ++ rbrace :: rest)),
                ihx, toJObj]

/-- The serialized member list of a non-empty document has at least as
many characters as the document has members. -/
theorem length_le_serializePairs (o : List (String × String)) (hne : o ≠ []) :
    o.length ≤ ((serializePairs o).data).length := by
  induction o with
  | nil => exact absurd rfl hne
  | cons p t ih =>
      cases t with
      | nil =>
          rw [serializePairs_one_data]
          simp [serializeStrLit_data]
      | cons q t' =>
          rw [serializePairs_cons_data]
          have hrec := ih (by simp)
          simp [serializeStrLit_data] at hrec ⊢
          omega

/-- The serialized member list of a non-empty document starts with a
double quote. -/
theorem serializePairs_data_head (p : String × String) (t : List (String × String)) :
    ((serializePairs (p :: t)).data).head? = some dq := by
  cases t with
  | nil => rw [serializePairs_one_data, serializeStrLit_data]; rfl
  | cons q t' => rw [serializePairs_cons_data, serializeStrLit_data]; rfl

/-- Roundtrip: the modelled JSON.parse inverts the modelled JSON.stringify
on every clean flat string-valued document. -/
theorem parse_serializeFlat (o : List (String × String)) (h : cleanDoc o) :
    parseObjStr (serializeFlat o) = some (toJObj o) := by
  cases o with
  | nil => rfl
  | cons p t =>
      have hdata : (serializeFlat (p :: t)).data =
          lbrace :: ((serializePairs (p :: t)).data ++ [rbrace]) := by
        simp [serializeFlat, String.data_append, String.singleton]
      cases hsp : (serializePairs (p :: t)).data with
      | nil =>
          have := serializePairs_data_head p t
          rw [hsp] at this
          exact absurd this (by simp)
      | cons c tl =>
          have hc : c = dq := by
            have := serializePairs_data_head p t
            rw [hsp] at this
            simpa using this
          have hcr : ¬ (c = rbrace) := by rw [hc]; decide
          have hlen : (p :: t).length ≤ ((c :: tl) ++ [rbrace]).length := by
            have := length_le_serializePairs (p :: t) (by simp)
            rw [hsp] at this
            simp only [List.length_append, List.length_cons] at this ⊢
            omega
          have hround := parsePairs_round (p :: t) (((c :: tl) ++ [rbrace]).length) []
            (by simp) (by simpa using hlen) h
          rw [hsp] at hround
          simp only [List.cons_append] at hround
          simp only [parseObjStr, hdata, hsp, List.cons_append]
          rw [if_pos trivial, if_neg hcr, hround]

/-- C9: the router's response and outbound effects are identical whether
the entity's `source_details` arrives as a structured object or as the
JSON string serialization of that same (clean, flat, string-valued)
document: the handler parses a string-valued `source_details` before
extracting the table coordinates. -/
theorem string_and_object_source_details_equivalent
    (fu : Option String) (ds : Downstream) (n dn ss : String)
    (o : List (String × String)) (q : JObj) (hclean : cleanDoc o) :
    apiQuery fu ds (some ⟨n, dn, ss, .strVal (serializeFlat o)⟩) (some q) =
      apiQuery fu ds (some ⟨n, dn, ss, .objVal (toJObj o)⟩) (some q) := by
  have hround : parseSourceDetails (.strVal (serializeFlat o)) =
      parseSourceDetails (.objVal (toJObj o)) := by
    simp [parseSourceDetails, parse_serializeFlat o hclean]
  by_cases h1 : ss = "SCM-BQ"
  · cases fu with
    | none => simp [apiQuery, h1]
    | some url => cases ds <;> simp [apiQuery, h1, hround]
  · by_cases h2 : ss = "SAP-BW" <;> simp [apiQuery, h1, h2]

/-- Witness for C9 at the `Sales_Report` source details. -/
theorem string_and_object_source_details_equivalent_witness :
    cleanDoc salesDetails ∧
    apiQuery (some fnUrl) okDownstream
        (some ⟨"Sales_Report", "Sales Report", "SCM-BQ", .strVal (serializeFlat salesDetails)⟩)
        (some sampleQuery) =
      apiQuery (some fnUrl) okDownstream
        (some ⟨"Sales_Report", "Sales Report", "SCM-BQ", .objVal (toJObj salesDetails)⟩)
        (some sampleQuery) :=
  ⟨by decide,
   string_and_object_source_details_equivalent (some fnUrl) okDownstream
     "Sales_Report" "Sales Report" "SCM-BQ" salesDetails sampleQuery (by decide)⟩
